import Mathlib

/-!
Verification of the pmapper cloud scheduler (Scheduler.cpp / Scheduler.hpp).

The C++ scheduler is embedded shallowly:
* external simulator data (machine info, task info, VM info, energy meters,
  and the success of `VM_AddTask`, which the code wraps in try/catch) is an
  explicit environment `Env`;
* the scheduler's own fields (`machines`, `vms`, `energySortedMachines`,
  `machineUtilization`, the `initialized` flag and the function-local static
  `rebuild_count`) form `SchedState`;
* `std::map<MachineId_t, unsigned>` becomes a key-sorted association list;
  `unsigned` arithmetic is `Nat` reduced mod 2^32;
* calls into the simulator (`Machine_SetState`, `VM_Create`, `VM_Attach`,
  `VM_AddTask`, `VM_RemoveTask`) are recorded as a list of requests `Req`;
  mutations the simulator performs on its own state in response (appending
  the task to the VM's active list, adjusting `memory_used`) are modelled
  from the spec (sections 6.2 and 4.3) since the simulator is not part of
  the sources; `Machine_SetState` is asynchronous and does not change the
  observed `s_state` within the handler (spec section 5).
-/

/-- CPU architectures (Interfaces: CPUType_t). -/
inductive CPUType_t
  | ARM | POWER | RISCV | X86
  deriving DecidableEq

/-- VM flavors (Interfaces: VMType_t). -/
inductive VMType_t
  | AIX | LINUX | LINUX_RT | WIN
  deriving DecidableEq

/-- Machine power states; the scheduler only distinguishes S0 (on), S3 and S5 (off). -/
inductive SState_t
  | S0 | S3 | S5
  deriving DecidableEq

/-- SLA classes (Interfaces: SLAType_t). -/
inductive SLAType_t
  | SLA0 | SLA1 | SLA2 | SLA3
  deriving DecidableEq

/-- Task priorities (Interfaces: Priority_t). -/
inductive Priority_t
  | HIGH_PRIORITY | MID_PRIORITY | LOW_PRIORITY
  deriving DecidableEq

/-- A request issued by the scheduler to the external simulator. -/
inductive Req
  | setState (m : Nat) (s : SState_t)
  | vmCreate (v : Nat) (vt : VMType_t) (c : CPUType_t)
  | vmAttach (v m : Nat)
  | vmShutdown (v : Nat)
  | addTask (v t : Nat) (p : Priority_t)
  | removeTask (v t : Nat)
  | slaLog (t : Nat)
  deriving DecidableEq

/-- Cached machine attributes as returned by `Machine_GetInfo`. -/
structure MachineInfo where
  cpu : CPUType_t
  memory_size : Nat
  memory_used : Nat
  s_state : SState_t
  deriving DecidableEq

/-- Task attributes as returned by `RequiredCPUType` / `RequiredVMType` /
`GetTaskMemory` / `RequiredSLA`. -/
structure TaskInfo where
  cpu : CPUType_t
  vm_type : VMType_t
  memory : Nat
  sla : SLAType_t
  deriving DecidableEq

/-- VM attributes as returned by `VM_GetInfo`. -/
structure VMInfo where
  vm_type : VMType_t
  cpu : CPUType_t
  machine_id : Nat
  active_tasks : List Nat
  deriving DecidableEq

/-- The external simulator's observable state, as seen by the scheduler. -/
structure Env where
  minfo : Nat → MachineInfo
  tinfo : Nat → TaskInfo
  vinfo : Nat → VMInfo
  energy : Nat → Nat
  addOk : Nat → Nat → Bool
  freshVM : Nat

/-- The scheduler's own fields (Scheduler.hpp) plus the function-local
static `rebuild_count` of `BuildEnergySortedMachineList`.  The
`machineUtilization` map is a key-ascending association list; `inited`
embeds the C++ `initialized` flag. -/
structure SchedState where
  machines : List Nat
  vms : List Nat
  energySortedMachines : List (Nat × Nat)
  machineUtilization : List (Nat × Nat)
  inited : Bool
  rebuildCount : Nat
  deriving DecidableEq

/-- Result of a handler that reports success (NewTask, HandleSLAViolation). -/
structure NTRes where
  st : SchedState
  env : Env
  reqs : List Req
  alloc : Bool

/-- Result of TaskComplete. -/
structure TCRes where
  st : SchedState
  env : Env
  reqs : List Req

/-- Intermediate result threaded through the allocation loops. -/
structure LoopRes where
  util : List (Nat × Nat)
  env : Env
  reqs : List Req
  alloc : Bool

/-- Read from a `std::map<MachineId_t, unsigned>`; a missing key reads as the
value-initialized 0 that `operator[]` would insert. -/
def mapGet : List (Nat × Nat) → Nat → Nat
  | [], _ => 0
  | p :: rest, k => if k = p.1 then p.2 else mapGet rest k

/-- Write into a key-ascending association list, inserting the key if absent
(the `std::map::operator[]` assignment). -/
def mapSet : List (Nat × Nat) → Nat → Nat → List (Nat × Nat)
  | [], k, v => [(k, v)]
  | p :: rest, k, v =>
    if k < p.1 then (k, v) :: p :: rest
    else if k = p.1 then (k, v) :: rest
    else p :: mapSet rest k v

/-- 2^32, the modulus of the C++ `unsigned` counters. -/
def U32MOD : Nat := 4294967296

/-- `unsigned` increment: `machineUtilization[m]++`. -/
def u32inc (v : Nat) : Nat := (v + 1) % U32MOD

/-- `unsigned` decrement: `machineUtilization[m]--`; wraps at 0. -/
def u32dec (v : Nat) : Nat := (v + (U32MOD - 1)) % U32MOD

/-- Comparison on the second component, the comparator
`a.second < b.second` used with `std::sort` (ties modelled stably). -/
def sndLE (a b : Nat × Nat) : Prop := a.2 ≤ b.2

instance : DecidableRel sndLE := fun a b => inferInstanceAs (Decidable (a.2 ≤ b.2))

instance : IsTotal (Nat × Nat) sndLE := ⟨fun a b => Nat.le_total a.2 b.2⟩

instance : IsTrans (Nat × Nat) sndLE := ⟨fun _ _ _ h1 h2 => Nat.le_trans h1 h2⟩

/-- Sort pairs ascending by second component (`std::sort` with the
`.second <` comparator). -/
def sortBySnd (l : List (Nat × Nat)) : List (Nat × Nat) := List.insertionSort sndLE l

/-- The priority the code computes at Scheduler.cpp:94, 261 and 588:
HIGH for task ids 0 and 64, MID for everything else. -/
def codePriority (t : Nat) : Priority_t :=
  if t = 0 ∨ t = 64 then Priority_t.HIGH_PRIORITY else Priority_t.MID_PRIORITY

/-- Modelled from the spec: the priority the spec prescribes, derived from
the SLA class — HIGH if SLA0, MID if SLA1, LOW otherwise (spec section 3).
Used only to compare against `codePriority`. -/
def specPriority : SLAType_t → Priority_t
  | SLAType_t.SLA0 => Priority_t.HIGH_PRIORITY
  | SLAType_t.SLA1 => Priority_t.MID_PRIORITY
  | _ => Priority_t.LOW_PRIORITY

/-- The scan in `FindVMForMachine` (Scheduler.cpp:330-334): walk the parallel
`machines` / `vms` vectors and return the VM stored at the machine's index. -/
def lookupVM : List Nat → List Nat → Nat → Option Nat
  | [], _, _ => none
  | _ :: _, [], _ => none
  | m :: ms, v :: vs, k => if m = k then some v else lookupVM ms vs k

/-- `VM_Create(vt, c)`: the simulator hands out a fresh VM id.  Modelled from
the spec (section 6.2); the VM is unattached until `VM_Attach`. -/
def vmCreate (env : Env) (vt : VMType_t) (c : CPUType_t) : Nat × Env :=
  (env.freshVM,
   { env with
     freshVM := env.freshVM + 1,
     vinfo := fun w => if w = env.freshVM then ⟨vt, c, 0, []⟩ else env.vinfo w })

/-- `VM_Attach(v, m)`: modelled from the spec (section 6.2). -/
def vmAttach (env : Env) (v m : Nat) : Env :=
  { env with
    vinfo := fun w => if w = v then { env.vinfo v with machine_id := m } else env.vinfo w }

/-- Simulator-side effect of a successful `VM_AddTask(v, t, p)`: the task
joins the VM's active list and the host's `memory_used` grows by the task's
memory.  Modelled from the spec (section 6.2). -/
def applyAdd (env : Env) (v t : Nat) : Env :=
  { env with
    vinfo := fun w =>
      if w = v then
        { env.vinfo v with active_tasks := (env.vinfo v).active_tasks ++ [t] }
      else env.vinfo w,
    minfo := fun m =>
      if m = (env.vinfo v).machine_id then
        { env.minfo m with memory_used := (env.minfo m).memory_used + (env.tinfo t).memory }
      else env.minfo m }

/-- Simulator-side effect of `VM_RemoveTask(v, t)`: modelled from the spec
(section 6.2). -/
def applyRemove (env : Env) (v t : Nat) : Env :=
  { env with
    vinfo := fun w =>
      if w = v then
        { env.vinfo v with active_tasks := (env.vinfo v).active_tasks.erase t }
      else env.vinfo w,
    minfo := fun m =>
      if m = (env.vinfo v).machine_id then
        { env.minfo m with memory_used := (env.minfo m).memory_used - (env.tinfo t).memory }
      else env.minfo m }

/-- `Scheduler::FindVMForMachine` (Scheduler.cpp:329-343): return the VM
paired with the machine in the parallel vectors, else create a VM of the
requested type with the machine's cpu and attach it. -/
def findVMForMachine (ms vs : List Nat) (env : Env) (m : Nat) (vt : VMType_t) :
    Nat × Env × List Req :=
  match lookupVM ms vs m with
  | some v => (v, env, [])
  | none =>
    let c := vmCreate env vt (env.minfo m).cpu
    (c.1, vmAttach c.2 c.1 m, [Req.vmCreate c.1 vt (env.minfo m).cpu, Req.vmAttach c.1 m])

/-- The admission test the NewTask loop applies to a machine of the
energy-sorted list (Scheduler.cpp:105-135): powered on, matching cpu,
memory fits, and `VM_AddTask` does not throw. -/
def admissibleB (ms vs : List Nat) (env : Env) (t tm : Nat) (rc : CPUType_t)
    (p : Nat × Nat) : Bool :=
  if (env.minfo p.1).s_state = SState_t.S5 then false
  else if (env.minfo p.1).cpu ≠ rc then false
  else if (env.minfo p.1).memory_used + tm ≤ (env.minfo p.1).memory_size then
    match lookupVM ms vs p.1 with
    | some v => env.addOk v t
    | none => env.addOk env.freshVM t
  else false

/-- The allocation loop of `Scheduler::NewTask` (Scheduler.cpp:105-136):
walk the energy-sorted machines; skip powered-off and cpu-incompatible ones;
obtain the machine's VM; if the task's memory fits, try `VM_AddTask` and on
success increment the machine's utilization counter and stop. -/
def newTaskLoop (ms vs : List Nat) (env : Env) (t tm : Nat) (rc : CPUType_t)
    (rv : VMType_t) (pr : Priority_t) (util : List (Nat × Nat)) (reqs : List Req) :
    List (Nat × Nat) → LoopRes
  | [] => ⟨util, env, reqs, false⟩
  | p :: rest =>
    if (env.minfo p.1).s_state = SState_t.S5 then
      newTaskLoop ms vs env t tm rc rv pr util reqs rest
    else if (env.minfo p.1).cpu ≠ rc then
      newTaskLoop ms vs env t tm rc rv pr util reqs rest
    else
      let fr := findVMForMachine ms vs env p.1 rv
      if (env.minfo p.1).memory_used + tm ≤ (env.minfo p.1).memory_size then
        if fr.2.1.addOk fr.1 t then
          ⟨mapSet util p.1 (u32inc (mapGet util p.1)), applyAdd fr.2.1 fr.1 t,
           (reqs ++ fr.2.2) ++ [Req.addTask fr.1 t pr], true⟩
        else newTaskLoop ms vs fr.2.1 t tm rc rv pr util (reqs ++ fr.2.2) rest
      else newTaskLoop ms vs fr.2.1 t tm rc rv pr util (reqs ++ fr.2.2) rest

/-- `Scheduler::BuildEnergySortedMachineList` (Scheduler.cpp:294-315),
including the `rebuild_count` early-return: rebuild only when the list is
empty (without touching the counter, short-circuit `&&`) or when the
post-incremented counter was a multiple of 5. -/
def buildEnergySortedMachineList (st : SchedState) (env : Env) : SchedState :=
  if st.energySortedMachines.isEmpty then
    { st with
      energySortedMachines := sortBySnd (st.machines.map fun m => (m, env.energy m)),
      inited := true }
  else if st.rebuildCount % 5 ≠ 0 then
    { st with rebuildCount := st.rebuildCount + 1 }
  else
    { st with
      rebuildCount := st.rebuildCount + 1,
      energySortedMachines := sortBySnd (st.machines.map fun m => (m, env.energy m)),
      inited := true }

/-- The loop body of `Scheduler::CheckAndTurnOffUnusedMachines`
(Scheduler.cpp:355-367), with the accumulated requests explicit. -/
def ctoAux (st : SchedState) (env : Env) : List Req → List (Nat × Nat) → List Req
  | acc, [] => acc
  | acc, p :: rest =>
    if mapGet st.machineUtilization p.1 = 0 ∧ (env.minfo p.1).s_state ≠ SState_t.S5 then
      ctoAux st env (acc ++ [Req.setState p.1 SState_t.S5]) rest
    else ctoAux st env acc rest

/-- `Scheduler::CheckAndTurnOffUnusedMachines` (Scheduler.cpp:354-368):
request S5 for every machine of the energy-sorted list with utilization
counter 0 that is not already off. -/
def checkAndTurnOff (st : SchedState) (env : Env) : List Req :=
  ctoAux st env [] st.energySortedMachines

/-- `Scheduler::NewTask` (Scheduler.cpp:87-144). -/
def newTask (st : SchedState) (env : Env) (t : Nat) : NTRes :=
  let st0 := if st.inited then st else buildEnergySortedMachineList st env
  let r := newTaskLoop st0.machines st0.vms env t (env.tinfo t).memory (env.tinfo t).cpu
    (env.tinfo t).vm_type (codePriority t) st0.machineUtilization [] st0.energySortedMachines
  let st1 := { st0 with machineUtilization := r.util }
  let reqs1 := if r.alloc then r.reqs else r.reqs ++ [Req.slaLog t]
  ⟨st1, r.env, reqs1 ++ checkAndTurnOff st1 r.env, r.alloc⟩

/-- `Scheduler::FindMachineForTask` (Scheduler.cpp:379-393): scan the
machines and their paired VMs for one whose active list holds the task.
(The machines iterated are exactly the elements of `machines`, so the
`FindVMForMachine` call inside always hits the lookup branch.) -/
def findMachineForTaskAux (env : Env) (t : Nat) : List (Nat × Nat) → Option Nat
  | [] => none
  | p :: rest =>
    if t ∈ (env.vinfo p.2).active_tasks then some p.1
    else findMachineForTaskAux env t rest

/-- `Scheduler::FindMachineForTask`, entry point. -/
def findMachineForTask (st : SchedState) (env : Env) (t : Nat) : Option Nat :=
  findMachineForTaskAux env t (st.machines.zip st.vms)

/-- The minimum scan of `Scheduler::FindSmallestTaskOnMachine`
(Scheduler.cpp:413-422): start from the first active task and keep any
strictly smaller one. -/
def smallestBy (env : Env) (t0 : Nat) (ts : List Nat) : Nat :=
  ts.foldl (fun acc x => if (env.tinfo x).memory < (env.tinfo acc).memory then x else acc) t0

/-- `Scheduler::FindSmallestTaskOnMachine` (Scheduler.cpp:405-425). -/
def findSmallestTaskOnMachine (st : SchedState) (env : Env) (m : Nat) : Option Nat :=
  match lookupVM st.machines st.vms m with
  | none => none
  | some v =>
    match (env.vinfo v).active_tasks with
    | [] => none
    | t0 :: _ => some (smallestBy env t0 (env.vinfo v).active_tasks)

/-- The utilization update of a migration (Scheduler.cpp:264-265 and
591-592): decrement the source counter, then increment the destination
counter. -/
def applyMigrationUtil (u : List (Nat × Nat)) (src dst : Nat) : List (Nat × Nat) :=
  let u1 := mapSet u src (u32dec (mapGet u src))
  mapSet u1 dst (u32inc (mapGet u1 dst))

/-- The decrement `machineUtilization[taskMachine]--` (Scheduler.cpp:218). -/
def decUtilAt (u : List (Nat × Nat)) (m : Nat) : List (Nat × Nat) :=
  mapSet u m (u32dec (mapGet u m))

/-- The scheduler state right after the completion decrement. -/
def afterDec (st : SchedState) (m : Nat) : SchedState :=
  { st with machineUtilization := decUtilAt st.machineUtilization m }

/-- The powered-on entries of the utilization map, in key order
(Scheduler.cpp:222-226). -/
def poweredOnUtil (st : SchedState) (env : Env) : List (Nat × Nat) :=
  st.machineUtilization.filter fun p => decide ((env.minfo p.1).s_state ≠ SState_t.S5)

/-- The cpu test applied while scanning the upper half
(Scheduler.cpp:245-253). -/
def cpuMatchB (env : Env) (rc : CPUType_t) (p : Nat × Nat) : Bool :=
  decide ((env.minfo p.1).cpu = rc)

/-- The consolidation step of `Scheduler::TaskComplete`
(Scheduler.cpp:233-275): with at least two powered-on machines, take the
least utilized, find its smallest task, scan `sorted[n/2 ...]` in ascending
order for the first machine with matching cpu (no memory check), and if one
is found migrate the task and move one utilization count. -/
def consolidate (st1 : SchedState) (env : Env) (sorted : List (Nat × Nat)) : TCRes :=
  if 2 ≤ sorted.length then
    match sorted with
    | [] => ⟨st1, env, []⟩
    | least :: _ =>
      match findSmallestTaskOnMachine st1 env least.1 with
      | none => ⟨st1, env, []⟩
      | some tmin =>
        match (sorted.drop (sorted.length / 2)).find? (cpuMatchB env (env.tinfo tmin).cpu) with
        | none => ⟨st1, env, []⟩
        | some hp =>
          let fr1 := findVMForMachine st1.machines st1.vms env least.1 VMType_t.LINUX
          let fr2 := findVMForMachine st1.machines st1.vms fr1.2.1 hp.1 VMType_t.LINUX
          let env2 := applyRemove fr2.2.1 fr1.1 tmin
          let env3 := applyAdd env2 fr2.1 tmin
          ⟨{ st1 with machineUtilization := applyMigrationUtil st1.machineUtilization least.1 hp.1 },
           env3,
           (fr1.2.2 ++ fr2.2.2) ++
             [Req.removeTask fr1.1 tmin, Req.addTask fr2.1 tmin (codePriority tmin)]⟩
  else ⟨st1, env, []⟩

/-- `Scheduler::TaskComplete` (Scheduler.cpp:212-279). -/
def taskComplete (st : SchedState) (env : Env) (t : Nat) : TCRes :=
  match findMachineForTask st env t with
  | none => ⟨st, env, []⟩
  | some tm =>
    let st1 := afterDec st tm
    let r := consolidate st1 env (sortBySnd (poweredOnUtil st1 env))
    ⟨r.st, r.env, r.reqs ++ checkAndTurnOff r.st r.env⟩

/-- First loop of `Scheduler::HandleSLAViolation` (Scheduler.cpp:567-603):
try to migrate the task to a powered-on, cpu-compatible machine with room.
The try block spans both primitive calls; the remove commits, a throwing
add is swallowed and the loop continues. -/
def slaLoop1 (ms vs : List Nat) (env : Env) (cur tId tm : Nat) (rc : CPUType_t)
    (rv : VMType_t) (util : List (Nat × Nat)) (reqs : List Req) :
    List (Nat × Nat) → LoopRes
  | [] => ⟨util, env, reqs, false⟩
  | p :: rest =>
    if p.1 = cur then slaLoop1 ms vs env cur tId tm rc rv util reqs rest
    else if (env.minfo p.1).s_state = SState_t.S5 then
      slaLoop1 ms vs env cur tId tm rc rv util reqs rest
    else if (env.minfo p.1).cpu = rc ∧
        (env.minfo p.1).memory_used + tm ≤ (env.minfo p.1).memory_size then
      let fr1 := findVMForMachine ms vs env cur VMType_t.LINUX
      let fr2 := findVMForMachine ms vs fr1.2.1 p.1 rv
      let envR := applyRemove fr2.2.1 fr1.1 tId
      let reqs1 := (reqs ++ fr1.2.2 ++ fr2.2.2) ++ [Req.removeTask fr1.1 tId]
      if envR.addOk fr2.1 tId then
        ⟨applyMigrationUtil util cur p.1, applyAdd envR fr2.1 tId,
         reqs1 ++ [Req.addTask fr2.1 tId (codePriority tId)], true⟩
      else slaLoop1 ms vs envR cur tId tm rc rv util reqs1 rest
    else slaLoop1 ms vs env cur tId tm rc rv util reqs rest

/-- Second loop of `Scheduler::HandleSLAViolation` (Scheduler.cpp:605-647):
power on an off machine with matching cpu (asynchronous request; the
re-read info is unchanged within the handler) and retry the migration. -/
def slaLoop2 (ms vs : List Nat) (env : Env) (cur tId tm : Nat) (rc : CPUType_t)
    (rv : VMType_t) (util : List (Nat × Nat)) (reqs : List Req) :
    List (Nat × Nat) → LoopRes
  | [] => ⟨util, env, reqs, false⟩
  | p :: rest =>
    if p.1 = cur then slaLoop2 ms vs env cur tId tm rc rv util reqs rest
    else if (env.minfo p.1).s_state ≠ SState_t.S5 then
      slaLoop2 ms vs env cur tId tm rc rv util reqs rest
    else if (env.minfo p.1).cpu = rc then
      let reqs0 := reqs ++ [Req.setState p.1 SState_t.S0]
      if (env.minfo p.1).memory_used + tm ≤ (env.minfo p.1).memory_size then
        let fr1 := findVMForMachine ms vs env cur VMType_t.LINUX
        let fr2 := findVMForMachine ms vs fr1.2.1 p.1 rv
        let envR := applyRemove fr2.2.1 fr1.1 tId
        let reqs1 := (reqs0 ++ fr1.2.2 ++ fr2.2.2) ++ [Req.removeTask fr1.1 tId]
        if envR.addOk fr2.1 tId then
          ⟨applyMigrationUtil util cur p.1, applyAdd envR fr2.1 tId,
           reqs1 ++ [Req.addTask fr2.1 tId (codePriority tId)], true⟩
        else slaLoop2 ms vs envR cur tId tm rc rv util reqs1 rest
      else slaLoop2 ms vs env cur tId tm rc rv util reqs0 rest
    else slaLoop2 ms vs env cur tId tm rc rv util reqs rest

/-- `Scheduler::HandleSLAViolation` (Scheduler.cpp:549-651); `none` for the
`(MachineId_t)-1` sentinel of the public `SLAWarning` wrapper. -/
def handleSLAViolation (st : SchedState) (env : Env) (tId : Nat)
    (curM : Option Nat) : NTRes :=
  let cm := match curM with
    | some m => some m
    | none => findMachineForTask st env tId
  match cm with
  | none => ⟨st, env, [], false⟩
  | some cur =>
    let r1 := slaLoop1 st.machines st.vms env cur tId (env.tinfo tId).memory
      (env.tinfo tId).cpu (env.tinfo tId).vm_type st.machineUtilization []
      st.energySortedMachines
    if r1.alloc then ⟨{ st with machineUtilization := r1.util }, r1.env, r1.reqs, true⟩
    else
      let r2 := slaLoop2 st.machines st.vms r1.env cur tId (env.tinfo tId).memory
        (env.tinfo tId).cpu (env.tinfo tId).vm_type st.machineUtilization r1.reqs
        st.energySortedMachines
      ⟨{ st with machineUtilization := r2.util }, r2.env, r2.reqs, r2.alloc⟩

/-- Accumulator of the discovery loop in `Scheduler::Init`. -/
structure InitAcc where
  ms : List Nat
  vs : List Nat
  util : List (Nat × Nat)
  env : Env
  reqs : List Req

/-- The discovery loop of `Scheduler::Init` (Scheduler.cpp:41-48): for every
machine id below the total that is not powered off, record it, create a
LINUX VM with the machine's cpu, and zero its utilization counter. -/
def initScan (env0 : Env) (total : Nat) : InitAcc :=
  (List.range total).foldl
    (fun a i =>
      if (a.env.minfo i).s_state ≠ SState_t.S5 then
        let c := vmCreate a.env VMType_t.LINUX (a.env.minfo i).cpu
        ⟨a.ms ++ [i], a.vs ++ [c.1], mapSet a.util i 0, c.2,
         a.reqs ++ [Req.vmCreate c.1 VMType_t.LINUX (a.env.minfo i).cpu]⟩
      else a)
    ⟨[], [], [], env0, []⟩

/-- The attach loop of `Scheduler::Init` (Scheduler.cpp:50-52). -/
def attachAll (env : Env) (pairs : List (Nat × Nat)) : Env × List Req :=
  pairs.foldl
    (fun acc p => (vmAttach acc.1 p.2 p.1, acc.2 ++ [Req.vmAttach p.2 p.1]))
    (env, [])

/-- `Scheduler::Init` (Scheduler.cpp:26-57). -/
def initScheduler (env0 : Env) (total : Nat) : SchedState × Env × List Req :=
  let a := initScan env0 total
  let at1 := attachAll a.env (a.ms.zip a.vs)
  let st1 := buildEnergySortedMachineList ⟨a.ms, a.vs, [], a.util, false, 0⟩ at1.1
  (st1, at1.1, a.reqs ++ at1.2)

/-- The memory footprint the spec's LoadCounter is claimed to sum: total
memory of a list of tasks. -/
def memSum (env : Env) (ts : List Nat) : Nat :=
  (ts.map fun t => (env.tinfo t).memory).sum

/-- The invariant relating the parallel vectors to the simulator: the VM
paired with a machine carries the machine's cpu (established by `Init`,
which creates each VM with `info.cpu`). -/
def VMCpuInv (st : SchedState) (env : Env) : Prop :=
  ∀ m v, lookupVM st.machines st.vms m = some v → (env.vinfo v).cpu = (env.minfo m).cpu

/-- Default machine record for ids outside a concrete scenario. -/
def defMI : MachineInfo := ⟨CPUType_t.X86, 0, 0, SState_t.S5⟩

/-- Default task record for ids outside a concrete scenario. -/
def defTI : TaskInfo := ⟨CPUType_t.X86, VMType_t.LINUX, 1, SLAType_t.SLA2⟩

/-- Default VM record for ids outside a concrete scenario. -/
def defVI : VMInfo := ⟨VMType_t.LINUX, CPUType_t.X86, 0, []⟩

/-- Scenario A: two powered-on X86 machines; machine 1 is first in the
energy order but carries the larger utilization counter. -/
def stA : SchedState := ⟨[0, 1], [100, 101], [(1, 5), (0, 10)], [(0, 0), (1, 2)], true, 0⟩

/-- Environment of scenario A: machine 0 empty, machine 1 holds tasks 7 and 8;
task 3 (4 units of memory) fits on both. -/
def envA : Env :=
  { minfo := fun m =>
      if m = 0 then ⟨CPUType_t.X86, 16, 0, SState_t.S0⟩
      else if m = 1 then ⟨CPUType_t.X86, 16, 4, SState_t.S0⟩
      else defMI,
    tinfo := fun t =>
      if t = 3 then ⟨CPUType_t.X86, VMType_t.LINUX, 4, SLAType_t.SLA2⟩
      else ⟨CPUType_t.X86, VMType_t.LINUX, 2, SLAType_t.SLA2⟩,
    vinfo := fun v =>
      if v = 100 then ⟨VMType_t.LINUX, CPUType_t.X86, 0, []⟩
      else if v = 101 then ⟨VMType_t.LINUX, CPUType_t.X86, 1, [7, 8]⟩
      else defVI,
    energy := fun m => if m = 1 then 5 else 10,
    addOk := fun _ _ => true,
    freshVM := 200 }

/-- Scenario B: a single machine, already powered off, with the cpu the
incoming task needs. -/
def stB : SchedState := ⟨[0], [100], [(0, 5)], [(0, 0)], true, 0⟩

/-- Environment of scenario B: machine 0 is S5; task 3 requires its cpu. -/
def envB : Env :=
  { minfo := fun m => if m = 0 then ⟨CPUType_t.X86, 16, 0, SState_t.S5⟩ else defMI,
    tinfo := fun t =>
      if t = 3 then ⟨CPUType_t.X86, VMType_t.LINUX, 4, SLAType_t.SLA0⟩ else defTI,
    vinfo := fun v => if v = 100 then ⟨VMType_t.LINUX, CPUType_t.X86, 0, []⟩ else defVI,
    energy := fun _ => 5,
    addOk := fun _ _ => true,
    freshVM := 200 }

/-- Scenario C: one powered-on machine; task 1 carries SLA0. -/
def stC : SchedState := ⟨[0], [100], [(0, 5)], [(0, 0)], true, 0⟩

/-- Environment of scenario C. -/
def envC : Env :=
  { minfo := fun m => if m = 0 then ⟨CPUType_t.X86, 16, 0, SState_t.S0⟩ else defMI,
    tinfo := fun t =>
      if t = 1 then ⟨CPUType_t.X86, VMType_t.LINUX, 2, SLAType_t.SLA0⟩ else defTI,
    vinfo := fun v => if v = 100 then ⟨VMType_t.LINUX, CPUType_t.X86, 0, []⟩ else defVI,
    energy := fun _ => 5,
    addOk := fun _ _ => true,
    freshVM := 200 }

/-- Environment handed to `Init` in scenario D: one powered-on machine,
ids outside the fleet read as powered off; the scheduler will create VM 100.
Task 7 needs 4 units of memory. -/
def envD0 : Env :=
  { minfo := fun m => if m = 0 then ⟨CPUType_t.X86, 16, 0, SState_t.S0⟩ else defMI,
    tinfo := fun t =>
      if t = 7 then ⟨CPUType_t.X86, VMType_t.LINUX, 4, SLAType_t.SLA2⟩ else defTI,
    vinfo := fun _ => defVI,
    energy := fun _ => 3,
    addOk := fun _ _ => true,
    freshVM := 100 }

/-- Scenario E: four powered-on X86 machines; task 9 (on machine 0)
completes; machine 2 is memory-full, machine 3 has room and the higher
utilization counter. -/
def stE : SchedState :=
  ⟨[0, 1, 2, 3], [100, 101, 102, 103], [(0, 1), (1, 2), (2, 3), (3, 4)],
   [(0, 2), (1, 2), (2, 3), (3, 4)], true, 0⟩

/-- Environment of scenario E. -/
def envE : Env :=
  { minfo := fun m =>
      if m = 0 then ⟨CPUType_t.X86, 16, 3, SState_t.S0⟩
      else if m = 1 then ⟨CPUType_t.X86, 16, 2, SState_t.S0⟩
      else if m = 2 then ⟨CPUType_t.X86, 16, 16, SState_t.S0⟩
      else if m = 3 then ⟨CPUType_t.X86, 16, 5, SState_t.S0⟩
      else defMI,
    tinfo := fun t =>
      if t = 9 then ⟨CPUType_t.X86, VMType_t.LINUX, 2, SLAType_t.SLA2⟩
      else if t = 4 then ⟨CPUType_t.X86, VMType_t.LINUX, 1, SLAType_t.SLA2⟩
      else if t = 13 then ⟨CPUType_t.X86, VMType_t.LINUX, 14, SLAType_t.SLA2⟩
      else defTI,
    vinfo := fun v =>
      if v = 100 then ⟨VMType_t.LINUX, CPUType_t.X86, 0, [9, 4]⟩
      else if v = 101 then ⟨VMType_t.LINUX, CPUType_t.X86, 1, [11, 12]⟩
      else if v = 102 then ⟨VMType_t.LINUX, CPUType_t.X86, 2, [13, 14, 15]⟩
      else if v = 103 then ⟨VMType_t.LINUX, CPUType_t.X86, 3, [16, 17, 18, 19]⟩
      else defVI,
    energy := fun m => m + 1,
    addOk := fun _ _ => true,
    freshVM := 200 }

/-- Scenario F: one powered-on machine; task 7 requires a WIN VM although
the machine's pre-created VM is LINUX. -/
def stF : SchedState := ⟨[0], [100], [(0, 5)], [(0, 0)], true, 0⟩

/-- Environment of scenario F. -/
def envF : Env :=
  { minfo := fun m => if m = 0 then ⟨CPUType_t.X86, 16, 0, SState_t.S0⟩ else defMI,
    tinfo := fun t =>
      if t = 7 then ⟨CPUType_t.X86, VMType_t.WIN, 4, SLAType_t.SLA2⟩ else defTI,
    vinfo := fun v => if v = 100 then ⟨VMType_t.LINUX, CPUType_t.X86, 0, []⟩ else defVI,
    energy := fun _ => 5,
    addOk := fun _ _ => true,
    freshVM := 200 }

/-- Scenario G: one idle powered-on machine with its Init-created VM
attached; the arriving task needs a cpu no machine has. -/
def stG : SchedState := ⟨[0], [100], [(0, 3)], [(0, 0)], true, 0⟩

/-- Environment of scenario G. -/
def envG : Env :=
  { minfo := fun m => if m = 0 then ⟨CPUType_t.X86, 16, 0, SState_t.S0⟩ else defMI,
    tinfo := fun t =>
      if t = 9 then ⟨CPUType_t.ARM, VMType_t.LINUX, 1, SLAType_t.SLA2⟩ else defTI,
    vinfo := fun v => if v = 100 then ⟨VMType_t.LINUX, CPUType_t.X86, 0, []⟩ else defVI,
    energy := fun _ => 3,
    addOk := fun _ _ => true,
    freshVM := 200 }

/-- Scenario H: a fleet in which task 99 is nowhere to be found. -/
def stH : SchedState := ⟨[0], [100], [(0, 1)], [(0, 0)], true, 0⟩

/-- Environment of scenario H. -/
def envH : Env :=
  { minfo := fun m => if m = 0 then ⟨CPUType_t.X86, 16, 0, SState_t.S0⟩ else defMI,
    tinfo := fun _ => defTI,
    vinfo := fun v => if v = 100 then ⟨VMType_t.LINUX, CPUType_t.X86, 0, []⟩ else defVI,
    energy := fun _ => 1,
    addOk := fun _ _ => true,
    freshVM := 200 }

/-- Scenario K: two powered-on machines; the counter of machine 0 is
already 0 although its VM still lists task 5, so the completion decrement
wraps. -/
def stK : SchedState := ⟨[0, 1], [100, 101], [(0, 1), (1, 2)], [(0, 0), (1, 1)], true, 0⟩

/-- Environment of scenario K. -/
def envK : Env :=
  { minfo := fun m =>
      if m = 0 then ⟨CPUType_t.X86, 16, 2, SState_t.S0⟩
      else if m = 1 then ⟨CPUType_t.X86, 16, 2, SState_t.S0⟩
      else defMI,
    tinfo := fun t =>
      if t = 5 then ⟨CPUType_t.X86, VMType_t.LINUX, 2, SLAType_t.SLA2⟩ else defTI,
    vinfo := fun v =>
      if v = 100 then ⟨VMType_t.LINUX, CPUType_t.X86, 0, [5]⟩
      else if v = 101 then ⟨VMType_t.LINUX, CPUType_t.X86, 1, [6]⟩
      else defVI,
    energy := fun m => m + 1,
    addOk := fun _ _ => true,
    freshVM := 200 }

/-- Recognizer for power-state requests. -/
def isSetState : Req → Bool
  | Req.setState _ _ => true
  | _ => false

/-- Scenario D: the scheduler state produced by `Init` on the one-machine
fleet of `envD0`. -/
def stD : SchedState := (initScheduler envD0 1).1

/-- Scenario D: the environment after `Init`. -/
def envD : Env := (initScheduler envD0 1).2.1

/-- Scenario L: a single powered-on machine holding task 5, with a
utilization counter of 1; the completion of task 5 exercises the
no-consolidation path. -/
def stL : SchedState := ⟨[0], [100], [(0, 1)], [(0, 1)], true, 0⟩

/-- Environment of scenario L. -/
def envL : Env :=
  { minfo := fun m => if m = 0 then ⟨CPUType_t.X86, 16, 2, SState_t.S0⟩ else defMI,
    tinfo := fun t =>
      if t = 5 then ⟨CPUType_t.X86, VMType_t.LINUX, 2, SLAType_t.SLA2⟩ else defTI,
    vinfo := fun v => if v = 100 then ⟨VMType_t.LINUX, CPUType_t.X86, 0, [5]⟩ else defVI,
    energy := fun _ => 1,
    addOk := fun _ _ => true,
    freshVM := 200 }

/-- Scenario M: two powered-on machines with different cpus; the
completion of task 9 on machine 0 leaves smallest task 8 there, but the
upper half of the utilization order has no cpu match, so the consolidation
scan finds no destination and no migration happens. -/
def stM : SchedState := ⟨[0, 1], [100, 101], [(0, 1), (1, 2)], [(0, 2), (1, 5)], true, 0⟩

/-- Environment of scenario M. -/
def envM : Env :=
  { minfo := fun m =>
      if m = 0 then ⟨CPUType_t.X86, 16, 4, SState_t.S0⟩
      else if m = 1 then ⟨CPUType_t.POWER, 16, 8, SState_t.S0⟩
      else defMI,
    tinfo := fun t =>
      if t = 9 then ⟨CPUType_t.X86, VMType_t.LINUX, 2, SLAType_t.SLA2⟩
      else if t = 8 then ⟨CPUType_t.X86, VMType_t.LINUX, 1, SLAType_t.SLA2⟩
      else defTI,
    vinfo := fun v =>
      if v = 100 then ⟨VMType_t.LINUX, CPUType_t.X86, 0, [9, 8]⟩
      else if v = 101 then ⟨VMType_t.LINUX, CPUType_t.POWER, 1, [11]⟩
      else defVI,
    energy := fun m => m + 1,
    addOk := fun _ _ => true,
    freshVM := 200 }

/-- Two environments agree on every cpu attribute the scheduler reads:
the cpu of every VM and of every machine.  `VM_AddTask` / `VM_RemoveTask`
only touch task lists and memory, so the handlers' environment updates
preserve this relation. -/
def EnvCpuEq (e eA : Env) : Prop :=
  (∀ w, (eA.vinfo w).cpu = (e.vinfo w).cpu) ∧ (∀ m, (eA.minfo m).cpu = (e.minfo m).cpu)

/-! ### Basic lemmas about the map and counter operations -/

theorem mapGet_mapSet_self (u : List (Nat × Nat)) (k v : Nat) :
    mapGet (mapSet u k v) k = v := by
  induction u with
  | nil => simp [mapSet, mapGet]
  | cons p rest ih =>
    by_cases h1 : k < p.1
    · simp [mapSet, h1, mapGet]
    · by_cases h2 : k = p.1
      · simp [mapSet, h1, h2, mapGet]
      · simp [mapSet, h1, h2, mapGet, ih]

theorem mapGet_mapSet_ne (u : List (Nat × Nat)) (k v k' : Nat) (h : k' ≠ k) :
    mapGet (mapSet u k v) k' = mapGet u k' := by
  induction u with
  | nil => simp [mapSet, mapGet, h]
  | cons p rest ih =>
    by_cases h1 : k < p.1
    · simp [mapSet, h1, mapGet, h]
    · by_cases h2 : k = p.1
      · subst h2
        simp [mapSet, h1, mapGet, h]
      · by_cases h3 : k' = p.1
        · simp [mapSet, h1, h2, mapGet, h3]
        · simp [mapSet, h1, h2, mapGet, h3, ih]

theorem u32inc_eq (v : Nat) (h : v + 1 < U32MOD) : u32inc v = v + 1 :=
  Nat.mod_eq_of_lt h

theorem u32dec_eq (v : Nat) (h1 : 1 ≤ v) (h2 : v < U32MOD) : u32dec v = v - 1 := by
  unfold u32dec U32MOD at *
  omega

theorem u32dec_zero : u32dec 0 = U32MOD - 1 := by
  unfold u32dec U32MOD
  omega

/-! ### Lemmas about the power-off sweep -/

theorem ctoAux_mem (st : SchedState) (env : Env) :
    ∀ (l : List (Nat × Nat)) (acc : List Req) (r : Req), r ∈ ctoAux st env acc l →
      r ∈ acc ∨ ∃ m, r = Req.setState m SState_t.S5
        ∧ mapGet st.machineUtilization m = 0 ∧ (env.minfo m).s_state ≠ SState_t.S5 := by
  intro l
  induction l with
  | nil => intro acc r hr; exact Or.inl hr
  | cons p rest ih =>
    intro acc r hr
    rw [ctoAux] at hr
    by_cases hc : mapGet st.machineUtilization p.1 = 0 ∧ (env.minfo p.1).s_state ≠ SState_t.S5
    · rw [if_pos hc] at hr
      rcases ih _ _ hr with h | h
      · rcases List.mem_append.mp h with h' | h'
        · exact Or.inl h'
        · refine Or.inr ⟨p.1, ?_, hc.1, hc.2⟩
          simpa using h'
      · exact Or.inr h
    · rw [if_neg hc] at hr
      exact ih _ _ hr

theorem checkAndTurnOff_mem (st : SchedState) (env : Env) (r : Req)
    (hr : r ∈ checkAndTurnOff st env) :
    ∃ m, r = Req.setState m SState_t.S5
      ∧ mapGet st.machineUtilization m = 0 ∧ (env.minfo m).s_state ≠ SState_t.S5 := by
  rcases ctoAux_mem st env st.energySortedMachines [] r hr with h | h
  · simp at h
  · exact h

/-! ### Lemmas about `FindVMForMachine` and the NewTask loop -/

theorem findVM_of_lookup (ms vs : List Nat) (env : Env) (m : Nat) (vt : VMType_t)
    (v : Nat) (hv : lookupVM ms vs m = some v) :
    findVMForMachine ms vs env m vt = (v, env, []) := by
  unfold findVMForMachine
  rw [hv]

theorem findVM_reqs_not_setState (ms vs : List Nat) (env : Env) (m : Nat) (vt : VMType_t)
    (r : Req) (h : r ∈ (findVMForMachine ms vs env m vt).2.2) : isSetState r = false := by
  unfold findVMForMachine at h
  cases hl : lookupVM ms vs m with
  | some v => rw [hl] at h; simp at h
  | none =>
    rw [hl] at h
    simp at h
    rcases h with h | h <;> simp [h, isSetState]

theorem newTaskLoop_reqs (ms vs : List Nat) (t tm : Nat) (rc : CPUType_t)
    (rv : VMType_t) (pr : Priority_t) :
    ∀ (es : List (Nat × Nat)) (env : Env) (util : List (Nat × Nat)) (reqs : List Req)
      (r : Req), r ∈ (newTaskLoop ms vs env t tm rc rv pr util reqs es).reqs →
      r ∈ reqs ∨ isSetState r = false := by
  intro es
  induction es with
  | nil => intro env util reqs r hr; exact Or.inl hr
  | cons p rest ih =>
    intro env util reqs r hr
    rw [newTaskLoop] at hr
    by_cases h1 : (env.minfo p.1).s_state = SState_t.S5
    · rw [if_pos h1] at hr; exact ih env util reqs r hr
    · rw [if_neg h1] at hr
      by_cases h2 : (env.minfo p.1).cpu ≠ rc
      · rw [if_pos h2] at hr; exact ih env util reqs r hr
      · rw [if_neg h2] at hr
        by_cases h3 : (env.minfo p.1).memory_used + tm ≤ (env.minfo p.1).memory_size
        · rw [if_pos h3] at hr
          by_cases h4 : ((findVMForMachine ms vs env p.1 rv).2.1.addOk
              (findVMForMachine ms vs env p.1 rv).1 t) = true
          · rw [if_pos h4] at hr
            simp only [LoopRes.reqs] at hr
            rcases List.mem_append.mp hr with h' | h'
            · rcases List.mem_append.mp h' with h'' | h''
              · exact Or.inl h''
              · exact Or.inr (findVM_reqs_not_setState ms vs env p.1 rv r h'')
            · simp at h'
              subst h'
              simp [isSetState]
          · rw [if_neg h4] at hr
            rcases ih _ _ _ r hr with h' | h'
            · rcases List.mem_append.mp h' with h'' | h''
              · exact Or.inl h''
              · exact Or.inr (findVM_reqs_not_setState ms vs env p.1 rv r h'')
            · exact Or.inr h'
        · rw [if_neg h3] at hr
          rcases ih _ _ _ r hr with h' | h'
          · rcases List.mem_append.mp h' with h'' | h''
            · exact Or.inl h''
            · exact Or.inr (findVM_reqs_not_setState ms vs env p.1 rv r h'')
          · exact Or.inr h'

theorem admissibleB_true (ms vs : List Nat) (env : Env) (t tm : Nat) (rc : CPUType_t)
    (p : Nat × Nat) (h : admissibleB ms vs env t tm rc p = true) :
    (env.minfo p.1).s_state ≠ SState_t.S5 ∧ (env.minfo p.1).cpu = rc
      ∧ (env.minfo p.1).memory_used + tm ≤ (env.minfo p.1).memory_size := by
  unfold admissibleB at h
  by_cases h1 : (env.minfo p.1).s_state = SState_t.S5
  · rw [if_pos h1] at h; exact absurd h (by simp)
  · rw [if_neg h1] at h
    by_cases h2 : (env.minfo p.1).cpu ≠ rc
    · rw [if_pos h2] at h; exact absurd h (by simp)
    · rw [if_neg h2] at h
      by_cases h3 : (env.minfo p.1).memory_used + tm ≤ (env.minfo p.1).memory_size
      · exact ⟨h1, not_not.mp h2, h3⟩
      · rw [if_neg h3] at h; exact absurd h (by simp)

theorem newTaskLoop_spec (ms vs : List Nat) (t tm : Nat) (rc : CPUType_t)
    (rv : VMType_t) (pr : Priority_t) :
    ∀ (es : List (Nat × Nat)) (env : Env) (util : List (Nat × Nat)) (reqs : List Req),
      (∀ p ∈ es, (lookupVM ms vs p.1).isSome) →
      newTaskLoop ms vs env t tm rc rv pr util reqs es =
        match es.find? (admissibleB ms vs env t tm rc) with
        | none => ⟨util, env, reqs, false⟩
        | some p =>
          ⟨mapSet util p.1 (u32inc (mapGet util p.1)),
           applyAdd env ((lookupVM ms vs p.1).getD 0) t,
           reqs ++ [Req.addTask ((lookupVM ms vs p.1).getD 0) t pr], true⟩ := by
  intro es
  induction es with
  | nil => intro env util reqs _; rfl
  | cons p rest ih =>
    intro env util reqs H
    obtain ⟨v, hv⟩ : ∃ v, lookupVM ms vs p.1 = some v :=
      Option.isSome_iff_exists.mp (H p (List.mem_cons_self p rest))
    have Hrest : ∀ q ∈ rest, (lookupVM ms vs q.1).isSome :=
      fun q hq => H q (List.mem_cons_of_mem p hq)
    have hfr := findVM_of_lookup ms vs env p.1 rv v hv
    rw [newTaskLoop]
    by_cases h1 : (env.minfo p.1).s_state = SState_t.S5
    · have hadm : admissibleB ms vs env t tm rc p = false := by simp [admissibleB, h1]
      rw [if_pos h1, List.find?_cons_of_neg _ (by simp [hadm])]
      exact ih env util reqs Hrest
    · rw [if_neg h1]
      by_cases h2 : (env.minfo p.1).cpu ≠ rc
      · have hadm : admissibleB ms vs env t tm rc p = false := by
          simp [admissibleB, h1, h2]
        rw [if_pos h2, List.find?_cons_of_neg _ (by simp [hadm])]
        exact ih env util reqs Hrest
      · rw [if_neg h2, hfr]
        by_cases h3 : (env.minfo p.1).memory_used + tm ≤ (env.minfo p.1).memory_size
        · rw [if_pos h3]
          by_cases h4 : env.addOk v t = true
          · have hadm : admissibleB ms vs env t tm rc p = true := by
              simp [admissibleB, h1, h2, h3, hv, h4]
            rw [if_pos h4, List.find?_cons_of_pos _ (by simp [hadm])]
            simp [hv]
          · have hadm : admissibleB ms vs env t tm rc p = false := by
              simp [admissibleB, h1, h2, h3, hv]
              exact eq_false_of_ne_true h4
            rw [if_neg h4, List.find?_cons_of_neg _ (by simp [hadm])]
            rw [List.append_nil]
            exact ih env util reqs Hrest
        · have hadm : admissibleB ms vs env t tm rc p = false := by
            simp [admissibleB, h1, h2, h3]
          rw [if_neg h3, List.find?_cons_of_neg _ (by simp [hadm])]
          rw [List.append_nil]
          exact ih env util reqs Hrest

theorem newTask_spec (st : SchedState) (env : Env) (t : Nat) (hin : st.inited = true)
    (H : ∀ p ∈ st.energySortedMachines, (lookupVM st.machines st.vms p.1).isSome) :
    newTask st env t =
      match st.energySortedMachines.find?
          (admissibleB st.machines st.vms env t (env.tinfo t).memory (env.tinfo t).cpu) with
      | none => ⟨st, env, [Req.slaLog t] ++ checkAndTurnOff st env, false⟩
      | some p =>
        ⟨{ st with machineUtilization :=
             mapSet st.machineUtilization p.1 (u32inc (mapGet st.machineUtilization p.1)) },
         applyAdd env ((lookupVM st.machines st.vms p.1).getD 0) t,
         [Req.addTask ((lookupVM st.machines st.vms p.1).getD 0) t (codePriority t)] ++
           checkAndTurnOff
             { st with machineUtilization :=
                 mapSet st.machineUtilization p.1 (u32inc (mapGet st.machineUtilization p.1)) }
             (applyAdd env ((lookupVM st.machines st.vms p.1).getD 0) t),
         true⟩ := by
  have hst0 : (if st.inited = true then st else buildEnergySortedMachineList st env) = st := by
    simp [hin]
  simp only [newTask]
  rw [hst0]
  rw [newTaskLoop_spec st.machines st.vms t (env.tinfo t).memory (env.tinfo t).cpu
    (env.tinfo t).vm_type (codePriority t) st.energySortedMachines env
    st.machineUtilization [] H]
  cases hf : st.energySortedMachines.find?
      (admissibleB st.machines st.vms env t (env.tinfo t).memory (env.tinfo t).cpu) with
  | none => simp
  | some p => simp

/-! ### Claim theorems -/

/-- C1, counterexample: in scenario A both machines are powered on, cpu
compatible and have room for task 3, machine 0 has the strictly smaller
utilization (load) counter, yet `NewTask` places the task on machine 1
(VM 101), the machine that comes first in the energy order — the machines
are not tried in LoadCounter-ascending order. -/
theorem c1_cx :
    (newTask stA envA 3).alloc = true
    ∧ Req.addTask 101 3 Priority_t.MID_PRIORITY ∈ (newTask stA envA 3).reqs
    ∧ Req.addTask 100 3 Priority_t.MID_PRIORITY ∉ (newTask stA envA 3).reqs
    ∧ lookupVM stA.machines stA.vms 0 = some 100
    ∧ lookupVM stA.machines stA.vms 1 = some 101
    ∧ mapGet stA.machineUtilization 0 < mapGet stA.machineUtilization 1
    ∧ (envA.minfo 0).s_state ≠ SState_t.S5
    ∧ (envA.minfo 0).cpu = (envA.tinfo 3).cpu
    ∧ (envA.minfo 0).memory_used + (envA.tinfo 3).memory ≤ (envA.minfo 0).memory_size := by
  decide

/-- C2, counterexample: in scenario B the only machine is powered off (S5)
and has exactly the cpu task 3 requires, yet `NewTask` issues no power-on
request and no add — it only logs the SLA violation.  The claimed
wake-INTERMEDIATE / wake-OFF / emergency ladder does not exist. -/
theorem c2_cx :
    (newTask stB envB 3).alloc = false
    ∧ (newTask stB envB 3).reqs = [Req.slaLog 3]
    ∧ (envB.minfo 0).s_state = SState_t.S5
    ∧ (envB.minfo 0).cpu = (envB.tinfo 3).cpu := by
  decide

/-- C3: task 1 carries SLA0, so the claimed rule would pass HIGH priority;
the code's id-based rule (HIGH only for ids 0 and 64) passes MID priority
to `VM_AddTask`. -/
theorem c3_priority_bug :
    Req.addTask 100 1 Priority_t.MID_PRIORITY ∈ (newTask stC envC 1).reqs
    ∧ (envC.tinfo 1).sla = SLAType_t.SLA0
    ∧ specPriority SLAType_t.SLA0 = Priority_t.HIGH_PRIORITY
    ∧ codePriority 1 = Priority_t.MID_PRIORITY
    ∧ codePriority 1 ≠ specPriority (envC.tinfo 1).sla := by
  decide

/-- C4, counterexample: starting from the state `Init` builds on a
one-machine fleet, placing task 7 (memory footprint 4) leaves the
machine's load counter at 1, while the memory sum of the tasks located on
it is 4 — the counter counts tasks, it does not sum memory. -/
theorem c4_cx :
    mapGet (newTask stD envD 7).st.machineUtilization 0 = 1
    ∧ lookupVM stD.machines stD.vms 0 = some 100
    ∧ ((newTask stD envD 7).env.vinfo 100).active_tasks = [7]
    ∧ memSum (newTask stD envD 7).env ((newTask stD envD 7).env.vinfo 100).active_tasks = 4
    ∧ (1 : Nat) ≠ 4 := by
  decide

/-- C5, counterexample: completing task 9 in scenario E migrates the
smallest task (4) of the least-utilized machine to machine 2 — the first
cpu match when the upper half is scanned in ascending order — even though
machine 2 has no memory room, while machine 3 is compatible, admissible and
more utilized but is never chosen.  The code neither scans downward nor
checks memory admission. -/
theorem c5_cx :
    Req.addTask 102 4 Priority_t.MID_PRIORITY ∈ (taskComplete stE envE 9).reqs
    ∧ Req.addTask 103 4 Priority_t.MID_PRIORITY ∉ (taskComplete stE envE 9).reqs
    ∧ lookupVM stE.machines stE.vms 2 = some 102
    ∧ lookupVM stE.machines stE.vms 3 = some 103
    ∧ (envE.minfo 2).memory_size < (envE.minfo 2).memory_used + (envE.tinfo 4).memory
    ∧ (envE.minfo 3).cpu = (envE.tinfo 4).cpu
    ∧ (envE.minfo 3).s_state ≠ SState_t.S5
    ∧ (envE.minfo 3).memory_used + (envE.tinfo 4).memory ≤ (envE.minfo 3).memory_size
    ∧ mapGet stE.machineUtilization 2 < mapGet stE.machineUtilization 3 := by
  decide

/-- C6, counterexample: task 7 requires a WIN VM; machine 0 is cpu
compatible, and `NewTask` adds the task to the machine's pre-created LINUX
VM 100 — the VM's flavor differs from the task's required flavor at the
moment of `VM_AddTask`. -/
theorem c6_cx :
    Req.addTask 100 7 Priority_t.MID_PRIORITY ∈ (newTask stF envF 7).reqs
    ∧ (envF.vinfo 100).vm_type = VMType_t.LINUX
    ∧ (envF.tinfo 7).vm_type = VMType_t.WIN
    ∧ (envF.vinfo 100).vm_type ≠ (envF.tinfo 7).vm_type := by
  decide

/-- C7, counterexample: in scenario G the handler requests S5 for the idle
machine 0 while VM 100 — created at `Init` — is still attached to it and no
VM shutdown is issued; after the handler the VM still reports machine 0 as
its host. -/
theorem c7_cx :
    Req.setState 0 SState_t.S5 ∈ (newTask stG envG 9).reqs
    ∧ lookupVM stG.machines stG.vms 0 = some 100
    ∧ (envG.vinfo 100).machine_id = 0
    ∧ ((newTask stG envG 9).env.vinfo 100).machine_id = 0
    ∧ Req.vmShutdown 100 ∉ (newTask stG envG 9).reqs := by
  decide

/-- C7, amended: every power-off the scheduler requests targets a machine
whose utilization counter is 0 at the moment of the request, and the
power-off sweep issues nothing but S5 requests — in particular it never
shuts down or detaches the machine's VM, which stays attached. -/
theorem c7_amended :
    (∀ st env m s, Req.setState m s ∈ checkAndTurnOff st env →
      s = SState_t.S5 ∧ mapGet st.machineUtilization m = 0)
    ∧ (∀ st env r, r ∈ checkAndTurnOff st env → ∃ m, r = Req.setState m SState_t.S5) := by
  constructor
  · intro st env m s hr
    obtain ⟨m', hm', hu', _⟩ := checkAndTurnOff_mem st env _ hr
    obtain ⟨hm, hs⟩ := Req.setState.inj hm'
    subst hm
    exact ⟨hs, hu'⟩
  · intro st env r hr
    obtain ⟨m', hm', _, _⟩ := checkAndTurnOff_mem st env _ hr
    exact ⟨m', hm'⟩

/-- Evaluates C7's amended theorem on scenario G. -/
theorem c7_amended_witness :
    SState_t.S5 = SState_t.S5 ∧ mapGet stG.machineUtilization 0 = 0 :=
  c7_amended.1 stG envG 0 SState_t.S5 (by decide)

/-- C8: when the task's machine cannot be located, `TaskComplete` and
`HandleSLAViolation` return with the scheduler state and the simulator
state untouched and no requests issued. -/
theorem c8_unknown_location :
    (∀ st env t, findMachineForTask st env t = none →
      taskComplete st env t = ⟨st, env, []⟩)
    ∧ (∀ st env t, findMachineForTask st env t = none →
      handleSLAViolation st env t none = ⟨st, env, [], false⟩) := by
  constructor
  · intro st env t h
    simp [taskComplete, h]
  · intro st env t h
    simp [handleSLAViolation, h]

/-- Evaluates C8's theorem on scenario H, where task 99 is unknown. -/
theorem c8_unknown_location_witness :
    taskComplete stH envH 99 = ⟨stH, envH, []⟩
    ∧ handleSLAViolation stH envH 99 none = ⟨stH, envH, [], false⟩ :=
  ⟨c8_unknown_location.1 stH envH 99 rfl, c8_unknown_location.2 stH envH 99 rfl⟩

/-- C9: the utilization update of a successful migration preserves the sum
of the two counters in the `unsigned` (mod 2^32) arithmetic the code uses;
whenever no wrap occurs (source counter at least 1, both counters in u32
range), the source decreases by exactly the 1 the destination increases by,
and the plain sum is preserved. -/
theorem c9_migration_sum (u : List (Nat × Nat)) (src dst : Nat) (hne : src ≠ dst) :
    (mapGet (applyMigrationUtil u src dst) src
        + mapGet (applyMigrationUtil u src dst) dst) % U32MOD
      = (mapGet u src + mapGet u dst) % U32MOD
    ∧ (1 ≤ mapGet u src → mapGet u src < U32MOD → mapGet u dst + 1 < U32MOD →
        mapGet (applyMigrationUtil u src dst) src = mapGet u src - 1
        ∧ mapGet (applyMigrationUtil u src dst) dst = mapGet u dst + 1
        ∧ mapGet (applyMigrationUtil u src dst) src
            + mapGet (applyMigrationUtil u src dst) dst
          = mapGet u src + mapGet u dst) := by
  have hdst : mapGet (applyMigrationUtil u src dst) dst = u32inc (mapGet u dst) := by
    unfold applyMigrationUtil
    rw [mapGet_mapSet_self, mapGet_mapSet_ne _ _ _ _ (Ne.symm hne)]
  have hsrc : mapGet (applyMigrationUtil u src dst) src = u32dec (mapGet u src) := by
    unfold applyMigrationUtil
    rw [mapGet_mapSet_ne _ _ _ _ hne, mapGet_mapSet_self]
  rw [hdst, hsrc]
  unfold u32inc u32dec U32MOD
  constructor
  · omega
  · intro h1 h2 h3
    refine ⟨by omega, by omega, by omega⟩

/-- Evaluates C9's theorem on a concrete two-machine counter map. -/
theorem c9_migration_sum_witness :
    mapGet (applyMigrationUtil [(0, 2), (1, 3)] 0 1) 0 = mapGet [(0, 2), (1, 3)] 0 - 1
    ∧ mapGet (applyMigrationUtil [(0, 2), (1, 3)] 0 1) 1 = mapGet [(0, 2), (1, 3)] 1 + 1
    ∧ mapGet (applyMigrationUtil [(0, 2), (1, 3)] 0 1) 0
        + mapGet (applyMigrationUtil [(0, 2), (1, 3)] 0 1) 1
      = mapGet [(0, 2), (1, 3)] 0 + mapGet [(0, 2), (1, 3)] 1 :=
  (c9_migration_sum [(0, 2), (1, 3)] 0 1 (by decide)).2 (by decide) (by decide) (by decide)

/-- C10: the utilization counter is decremented with `unsigned` wraparound:
decrementing 0 yields 2^32 - 1, an upper bound for every u32 value, so the
machine thereafter sorts last (most utilized) in the ascending utilization
order; scenario K shows the wrap on the located machine inside
`TaskComplete`'s decrement. -/
theorem c10_wraparound :
    u32dec 0 = U32MOD - 1
    ∧ (∀ v : Nat, v < U32MOD → v ≤ u32dec 0)
    ∧ findMachineForTask stK envK 5 = some 0
    ∧ mapGet stK.machineUtilization 0 = 0
    ∧ mapGet (afterDec stK 0).machineUtilization 0 = U32MOD - 1
    ∧ sortBySnd [(0, U32MOD - 1), (1, 1)] = [(1, 1), (0, U32MOD - 1)] := by
  refine ⟨u32dec_zero, ?_, by decide, by decide, ?_, by decide⟩
  · intro v hv
    rw [u32dec_zero]
    unfold U32MOD at *
    omega
  · show mapGet (afterDec stK 0).machineUtilization 0 = U32MOD - 1
    decide

/-- Evaluates C10's theorem at the u32 value 7. -/
theorem c10_wraparound_witness : (7 : Nat) ≤ u32dec 0 :=
  c10_wraparound.2.1 7 (by decide)

/-- C1, amended: `NewTask` walks the stored energy-sorted machine list in
order and considers exactly the machines that are not powered off, have
the required cpu, have room for the task's memory and whose VM accepts the
add; on the first such machine it increments that machine's utilization
counter by one, issues the add to the machine's VM and stops; if there is
none, it allocates nothing and the counters are unchanged. -/
theorem c1_amended (st : SchedState) (env : Env) (t : Nat) (hin : st.inited = true)
    (H : ∀ p ∈ st.energySortedMachines, (lookupVM st.machines st.vms p.1).isSome) :
    (st.energySortedMachines.find?
        (admissibleB st.machines st.vms env t (env.tinfo t).memory (env.tinfo t).cpu) = none →
      (newTask st env t).alloc = false
      ∧ (newTask st env t).st.machineUtilization = st.machineUtilization)
    ∧ (∀ p, st.energySortedMachines.find?
        (admissibleB st.machines st.vms env t (env.tinfo t).memory (env.tinfo t).cpu) = some p →
      (newTask st env t).alloc = true
      ∧ (newTask st env t).st.machineUtilization
          = mapSet st.machineUtilization p.1 (u32inc (mapGet st.machineUtilization p.1))
      ∧ Req.addTask ((lookupVM st.machines st.vms p.1).getD 0) t (codePriority t)
          ∈ (newTask st env t).reqs) := by
  have hs := newTask_spec st env t hin H
  constructor
  · intro hf
    rw [hf] at hs
    rw [hs]
    exact ⟨rfl, rfl⟩
  · intro p hf
    rw [hf] at hs
    rw [hs]
    refine ⟨rfl, rfl, ?_⟩
    simp

/-- Evaluates C1's amended theorem on scenario A, where the first
admissible machine of the energy order is machine 1. -/
theorem c1_amended_witness :
    (newTask stA envA 3).alloc = true
    ∧ (newTask stA envA 3).st.machineUtilization
        = mapSet stA.machineUtilization 1 (u32inc (mapGet stA.machineUtilization 1))
    ∧ Req.addTask ((lookupVM stA.machines stA.vms 1).getD 0) 3 (codePriority 3)
        ∈ (newTask stA envA 3).reqs :=
  (c1_amended stA envA 3 rfl (by decide)).2 (1, 5) (by decide)

/-- C2, amended: `NewTask` never wakes a machine — every power-state
request it issues is an S5 power-off (from the trailing idle sweep) — and
whenever it fails to allocate it logs the SLA violation directly. -/
theorem c2_amended :
    (∀ st env t m s, Req.setState m s ∈ (newTask st env t).reqs → s = SState_t.S5)
    ∧ (∀ st env t, (newTask st env t).alloc = false →
        Req.slaLog t ∈ (newTask st env t).reqs) := by
  constructor
  · intro st env t m s hr
    simp only [newTask] at hr
    set st0 := if st.inited = true then st else buildEnergySortedMachineList st env with hst0
    rcases List.mem_append.mp hr with h | h
    · have hloop : Req.setState m s ∈
          (newTaskLoop st0.machines st0.vms env t (env.tinfo t).memory (env.tinfo t).cpu
            (env.tinfo t).vm_type (codePriority t) st0.machineUtilization []
            st0.energySortedMachines).reqs := by
        split at h
        · exact h
        · rcases List.mem_append.mp h with h' | h'
          · exact h'
          · simp at h'
      rcases newTaskLoop_reqs _ _ _ _ _ _ _ _ _ _ _ _ hloop with h' | h'
      · exact absurd h' (List.not_mem_nil _)
      · simp [isSetState] at h'
    · obtain ⟨m', hm', _, _⟩ := checkAndTurnOff_mem _ _ _ h
      exact (Req.setState.inj hm').2
  · intro st env t halloc
    simp only [newTask] at halloc ⊢
    set st0 := if st.inited = true then st else buildEnergySortedMachineList st env with hst0
    rw [if_neg (by rw [halloc]; exact Bool.false_ne_true)]
    simp

/-- Evaluates C2's amended theorem: the S5 sweep request of scenario G and
the SLA log of scenario B. -/
theorem c2_amended_witness :
    SState_t.S5 = SState_t.S5 ∧ Req.slaLog 3 ∈ (newTask stB envB 3).reqs :=
  ⟨c2_amended.1 stG envG 9 0 SState_t.S5 (by decide), c2_amended.2 stB envB 3 (by decide)⟩

/-- `consolidate` performs no migration precisely when fewer than two
machines are powered on, or the least-utilized machine has no task, or the
upper half of the utilization order has no cpu match; in each case it
returns its inputs untouched with no requests (Scheduler.cpp:233-275). -/
theorem consolidate_no_migration (st1 : SchedState) (env : Env) (sorted : List (Nat × Nat))
    (h : sorted.length < 2
      ∨ (∃ least restl, sorted = least :: restl
          ∧ findSmallestTaskOnMachine st1 env least.1 = none)
      ∨ (∃ least restl tmin, sorted = least :: restl
          ∧ findSmallestTaskOnMachine st1 env least.1 = some tmin
          ∧ (sorted.drop (sorted.length / 2)).find?
              (cpuMatchB env (env.tinfo tmin).cpu) = none)) :
    consolidate st1 env sorted = ⟨st1, env, []⟩ := by
  rcases h with h | ⟨least, restl, hs, hsm⟩ | ⟨least, restl, tmin, hs, hsm, hf⟩
  · unfold consolidate
    rw [if_neg (by omega)]
  · by_cases hlen : 2 ≤ sorted.length
    · subst hs
      unfold consolidate
      rw [if_pos hlen]
      simp only [hsm]
    · unfold consolidate
      rw [if_neg hlen]
  · by_cases hlen : 2 ≤ sorted.length
    · subst hs
      unfold consolidate
      rw [if_pos hlen]
      simp only [hsm, hf]
    · unfold consolidate
      rw [if_neg hlen]

theorem envCpuEq_refl (e : Env) : EnvCpuEq e e := ⟨fun _ => rfl, fun _ => rfl⟩

theorem envCpuEq_trans {a b c : Env} (h1 : EnvCpuEq a b) (h2 : EnvCpuEq b c) :
    EnvCpuEq a c :=
  ⟨fun w => (h2.1 w).trans (h1.1 w), fun m => (h2.2 m).trans (h1.2 m)⟩

theorem envCpuEq_applyAdd (e : Env) (v t : Nat) : EnvCpuEq e (applyAdd e v t) := by
  refine ⟨fun w => ?_, fun m => ?_⟩
  · unfold applyAdd
    by_cases h : w = v <;> simp [h]
  · unfold applyAdd
    by_cases h : m = (e.vinfo v).machine_id <;> simp [h]

theorem envCpuEq_applyRemove (e : Env) (v t : Nat) : EnvCpuEq e (applyRemove e v t) := by
  refine ⟨fun w => ?_, fun m => ?_⟩
  · unfold applyRemove
    by_cases h : w = v <;> simp [h]
  · unfold applyRemove
    by_cases h : m = (e.vinfo v).machine_id <;> simp [h]

/-- C4, amended: the load counter tracks task counts, not memory: a
successful placement raises the chosen machine's counter by exactly one —
independent of the task's memory — while exactly that one task joins the
machine's VM and all other counters are untouched; every located
completion that performs no consolidation migration (fewer than two
powered-on machines, no task on the least-utilized machine, or no
cpu-compatible destination in the upper half) lowers the located machine's
counter by exactly one. -/
theorem c4_amended :
    (∀ st env t p v, st.inited = true →
      (∀ q ∈ st.energySortedMachines, (lookupVM st.machines st.vms q.1).isSome) →
      st.energySortedMachines.find?
          (admissibleB st.machines st.vms env t (env.tinfo t).memory (env.tinfo t).cpu)
        = some p →
      lookupVM st.machines st.vms p.1 = some v →
      mapGet st.machineUtilization p.1 + 1 < U32MOD →
      mapGet (newTask st env t).st.machineUtilization p.1
          = mapGet st.machineUtilization p.1 + 1
      ∧ ((newTask st env t).env.vinfo v).active_tasks = (env.vinfo v).active_tasks ++ [t]
      ∧ (∀ m, m ≠ p.1 →
          mapGet (newTask st env t).st.machineUtilization m
            = mapGet st.machineUtilization m))
    ∧ (∀ st env t tm, findMachineForTask st env t = some tm →
      ((sortBySnd (poweredOnUtil (afterDec st tm) env)).length < 2
        ∨ (∃ least restl, sortBySnd (poweredOnUtil (afterDec st tm) env) = least :: restl
            ∧ findSmallestTaskOnMachine (afterDec st tm) env least.1 = none)
        ∨ (∃ least restl tmin,
            sortBySnd (poweredOnUtil (afterDec st tm) env) = least :: restl
            ∧ findSmallestTaskOnMachine (afterDec st tm) env least.1 = some tmin
            ∧ ((sortBySnd (poweredOnUtil (afterDec st tm) env)).drop
                  ((sortBySnd (poweredOnUtil (afterDec st tm) env)).length / 2)).find?
                (cpuMatchB env (env.tinfo tmin).cpu) = none)) →
      1 ≤ mapGet st.machineUtilization tm →
      mapGet st.machineUtilization tm < U32MOD →
      mapGet (taskComplete st env t).st.machineUtilization tm
        = mapGet st.machineUtilization tm - 1) := by
  constructor
  · intro st env t p v hin H hf hv hlt
    have hs := newTask_spec st env t hin H
    rw [hf] at hs
    rw [hs]
    refine ⟨?_, ?_, ?_⟩
    · show mapGet (mapSet st.machineUtilization p.1 (u32inc (mapGet st.machineUtilization p.1))) p.1
        = mapGet st.machineUtilization p.1 + 1
      rw [mapGet_mapSet_self, u32inc_eq _ hlt]
    · show ((applyAdd env ((lookupVM st.machines st.vms p.1).getD 0) t).vinfo v).active_tasks
        = (env.vinfo v).active_tasks ++ [t]
      rw [hv]
      simp [applyAdd]
    · intro m hm
      show mapGet (mapSet st.machineUtilization p.1 (u32inc (mapGet st.machineUtilization p.1))) m
        = mapGet st.machineUtilization m
      rw [mapGet_mapSet_ne _ _ _ _ hm]
  · intro st env t tm h1 hno hge hlt
    simp only [taskComplete, h1]
    rw [consolidate_no_migration (afterDec st tm) env
      (sortBySnd (poweredOnUtil (afterDec st tm) env)) hno]
    show mapGet (afterDec st tm).machineUtilization tm = mapGet st.machineUtilization tm - 1
    unfold afterDec decUtilAt
    show mapGet (mapSet st.machineUtilization tm (u32dec (mapGet st.machineUtilization tm))) tm
      = mapGet st.machineUtilization tm - 1
    rw [mapGet_mapSet_self, u32dec_eq _ hge hlt]

/-- Evaluates C4's amended theorem: the placement delta on scenario D, the
completion delta with a single powered-on machine on scenario L, and the
completion delta with two powered-on machines but no cpu-compatible
destination on scenario M. -/
theorem c4_amended_witness :
    (mapGet (newTask stD envD 7).st.machineUtilization 0
        = mapGet stD.machineUtilization 0 + 1
      ∧ ((newTask stD envD 7).env.vinfo 100).active_tasks
          = (envD.vinfo 100).active_tasks ++ [7])
    ∧ mapGet (taskComplete stL envL 5).st.machineUtilization 0
        = mapGet stL.machineUtilization 0 - 1
    ∧ mapGet (taskComplete stM envM 9).st.machineUtilization 0
        = mapGet stM.machineUtilization 0 - 1 := by
  refine ⟨?_, ?_, ?_⟩
  · have h := c4_amended.1 stD envD 7 (0, 3) 100 (by decide) (by decide) (by decide)
      (by decide) (by decide)
    exact ⟨h.1, h.2.1⟩
  · exact c4_amended.2 stL envL 5 0 (by decide) (Or.inl (by decide)) (by decide) (by decide)
  · exact c4_amended.2 stM envM 9 0 (by decide)
      (Or.inr (Or.inr ⟨(0, 1), [(1, 5)], 8, by decide, by decide, by decide⟩))
      (by decide) (by decide)

/-- The cpu invariant holds in scenario A: each machine's paired VM carries
the machine's cpu. -/
theorem vmCpuInvA : VMCpuInv stA envA := by
  intro m v h
  have hm : m = 0 ∨ m = 1 ∨ lookupVM stA.machines stA.vms m = none := by
    by_cases h0 : m = 0
    · exact Or.inl h0
    · by_cases h1 : m = 1
      · exact Or.inr (Or.inl h1)
      · refine Or.inr (Or.inr ?_)
        show lookupVM [0, 1] [100, 101] m = none
        simp only [lookupVM]
        rw [if_neg (fun he => h0 he.symm), if_neg (fun he => h1 he.symm)]
  rcases hm with hm | hm | hm
  · subst hm
    have h100 : v = 100 := by
      have he : lookupVM stA.machines stA.vms 0 = some 100 := by decide
      rw [he] at h
      exact (Option.some.inj h).symm
    subst h100
    decide
  · subst hm
    have h101 : v = 101 := by
      have he : lookupVM stA.machines stA.vms 1 = some 101 := by decide
      rw [he] at h
      exact (Option.some.inj h).symm
    subst h101
    decide
  · rw [hm] at h
    exact Option.noConfusion h

/-- Computation of `TaskComplete` along the migration path: with the
located machine, the sorted view, the smallest task, the upper-half cpu
match and the two VM lookups given, the handler performs exactly the
remove/add pair, the counter transfer, and the trailing sweep
(Scheduler.cpp:212-279). -/
theorem taskComplete_migration_eq (st : SchedState) (env : Env) (t tm : Nat)
    (least : Nat × Nat) (rest : List (Nat × Nat)) (high uh : Nat) (tmin svm dvm : Nat)
    (h1 : findMachineForTask st env t = some tm)
    (hs : sortBySnd (poweredOnUtil (afterDec st tm) env) = least :: rest)
    (hne : rest ≠ [])
    (hsm : findSmallestTaskOnMachine (afterDec st tm) env least.1 = some tmin)
    (hfind : ((least :: rest).drop ((least :: rest).length / 2)).find?
        (cpuMatchB env (env.tinfo tmin).cpu) = some (high, uh))
    (hl1 : lookupVM st.machines st.vms least.1 = some svm)
    (hl2 : lookupVM st.machines st.vms high = some dvm) :
    taskComplete st env t =
      ⟨{ afterDec st tm with machineUtilization :=
           applyMigrationUtil (afterDec st tm).machineUtilization least.1 high },
       applyAdd (applyRemove env svm tmin) dvm tmin,
       [Req.removeTask svm tmin, Req.addTask dvm tmin (codePriority tmin)]
         ++ checkAndTurnOff
             { afterDec st tm with machineUtilization :=
                 applyMigrationUtil (afterDec st tm).machineUtilization least.1 high }
             (applyAdd (applyRemove env svm tmin) dvm tmin)⟩ := by
  have hlen : 2 ≤ (least :: rest).length := by
    cases rest with
    | nil => exact absurd rfl hne
    | cons a l => simp
  have hfr1 : findVMForMachine (afterDec st tm).machines (afterDec st tm).vms env least.1
      VMType_t.LINUX = (svm, env, []) :=
    findVM_of_lookup _ _ env least.1 VMType_t.LINUX svm hl1
  have hfr2 : findVMForMachine (afterDec st tm).machines (afterDec st tm).vms env high
      VMType_t.LINUX = (dvm, env, []) :=
    findVM_of_lookup _ _ env high VMType_t.LINUX dvm hl2
  have hcons : consolidate (afterDec st tm) env (least :: rest) =
      ⟨{ afterDec st tm with machineUtilization :=
           applyMigrationUtil (afterDec st tm).machineUtilization least.1 high },
       applyAdd (applyRemove env svm tmin) dvm tmin,
       [Req.removeTask svm tmin, Req.addTask dvm tmin (codePriority tmin)]⟩ := by
    unfold consolidate
    rw [if_pos hlen]
    simp only [hsm, hfind, hfr1, hfr2]
    simp
  simp only [taskComplete, h1, hs, hcons]

/-- Every `VM_AddTask` the first SLA-remediation loop issues goes to the
VM of a candidate that passed the cpu test: the add names the task under
remediation and a VM whose cpu (in the loop's final environment) is the
required cpu.  The loop's environment updates preserve all cpu fields. -/
theorem slaLoop1_adds (ms vs : List Nat) (cur tId tm : Nat) (rc : CPUType_t)
    (rv : VMType_t) (sv : Nat) (hcur : lookupVM ms vs cur = some sv) :
    ∀ (es : List (Nat × Nat)) (env : Env) (util : List (Nat × Nat)) (reqs : List Req),
      (∀ p ∈ es, (lookupVM ms vs p.1).isSome) →
      (∀ m w, lookupVM ms vs m = some w → (env.vinfo w).cpu = (env.minfo m).cpu) →
      EnvCpuEq env (slaLoop1 ms vs env cur tId tm rc rv util reqs es).env
      ∧ (∀ v tA pr', Req.addTask v tA pr'
            ∈ (slaLoop1 ms vs env cur tId tm rc rv util reqs es).reqs →
          Req.addTask v tA pr' ∈ reqs
          ∨ (tA = tId
            ∧ ((slaLoop1 ms vs env cur tId tm rc rv util reqs es).env.vinfo v).cpu = rc)) := by
  intro es
  induction es with
  | nil =>
    intro env util reqs _ _
    exact ⟨envCpuEq_refl env, fun v tA pr' h => Or.inl h⟩
  | cons p rest ih =>
    intro env util reqs H Hinv
    have Hrest : ∀ q ∈ rest, (lookupVM ms vs q.1).isSome :=
      fun q hq => H q (List.mem_cons_of_mem p hq)
    rw [slaLoop1]
    by_cases h0 : p.1 = cur
    · rw [if_pos h0]
      exact ih env util reqs Hrest Hinv
    · rw [if_neg h0]
      by_cases h1 : (env.minfo p.1).s_state = SState_t.S5
      · rw [if_pos h1]
        exact ih env util reqs Hrest Hinv
      · rw [if_neg h1]
        by_cases hg : (env.minfo p.1).cpu = rc
            ∧ (env.minfo p.1).memory_used + tm ≤ (env.minfo p.1).memory_size
        · rw [if_pos hg]
          obtain ⟨dv, hdv⟩ : ∃ dv, lookupVM ms vs p.1 = some dv :=
            Option.isSome_iff_exists.mp (H p (List.mem_cons_self p rest))
          have hfr1 := findVM_of_lookup ms vs env cur VMType_t.LINUX sv hcur
          have hfr2 := findVM_of_lookup ms vs env p.1 rv dv hdv
          simp only [hfr1, hfr2, List.append_nil]
          by_cases ha : (applyRemove env sv tId).addOk dv tId = true
          · rw [if_pos ha]
            constructor
            · exact envCpuEq_trans (envCpuEq_applyRemove env sv tId)
                (envCpuEq_applyAdd (applyRemove env sv tId) dv tId)
            · intro v tA pr' hmem
              rcases List.mem_append.mp hmem with h | h
              · rcases List.mem_append.mp h with h' | h'
                · exact Or.inl h'
                · simp at h'
              · simp only [List.mem_singleton] at h
                obtain ⟨hv, ht, -⟩ := Req.addTask.inj h
                refine Or.inr ⟨ht, ?_⟩
                rw [hv]
                show ((applyAdd (applyRemove env sv tId) dv tId).vinfo dv).cpu = rc
                rw [(envCpuEq_applyAdd (applyRemove env sv tId) dv tId).1 dv,
                  (envCpuEq_applyRemove env sv tId).1 dv, Hinv p.1 dv hdv]
                exact hg.1
          · rw [if_neg ha]
            have HinvR : ∀ m w, lookupVM ms vs m = some w →
                ((applyRemove env sv tId).vinfo w).cpu
                  = ((applyRemove env sv tId).minfo m).cpu := by
              intro m w hw
              rw [(envCpuEq_applyRemove env sv tId).1 w,
                (envCpuEq_applyRemove env sv tId).2 m]
              exact Hinv m w hw
            have IH := ih (applyRemove env sv tId) util (reqs ++ [Req.removeTask sv tId])
              Hrest HinvR
            constructor
            · exact envCpuEq_trans (envCpuEq_applyRemove env sv tId) IH.1
            · intro v tA pr' hmem
              rcases IH.2 v tA pr' hmem with h | h
              · rcases List.mem_append.mp h with h' | h'
                · exact Or.inl h'
                · simp at h'
              · exact Or.inr h
        · rw [if_neg hg]
          exact ih env util reqs Hrest Hinv

/-- Same as `slaLoop1_adds` for the power-on retry loop: besides the S0
requests it emits, every `VM_AddTask` it issues names the task under
remediation and a VM whose cpu (in the loop's final environment) is the
required cpu. -/
theorem slaLoop2_adds (ms vs : List Nat) (cur tId tm : Nat) (rc : CPUType_t)
    (rv : VMType_t) (sv : Nat) (hcur : lookupVM ms vs cur = some sv) :
    ∀ (es : List (Nat × Nat)) (env : Env) (util : List (Nat × Nat)) (reqs : List Req),
      (∀ p ∈ es, (lookupVM ms vs p.1).isSome) →
      (∀ m w, lookupVM ms vs m = some w → (env.vinfo w).cpu = (env.minfo m).cpu) →
      EnvCpuEq env (slaLoop2 ms vs env cur tId tm rc rv util reqs es).env
      ∧ (∀ v tA pr', Req.addTask v tA pr'
            ∈ (slaLoop2 ms vs env cur tId tm rc rv util reqs es).reqs →
          Req.addTask v tA pr' ∈ reqs
          ∨ (tA = tId
            ∧ ((slaLoop2 ms vs env cur tId tm rc rv util reqs es).env.vinfo v).cpu = rc)) := by
  intro es
  induction es with
  | nil =>
    intro env util reqs _ _
    exact ⟨envCpuEq_refl env, fun v tA pr' h => Or.inl h⟩
  | cons p rest ih =>
    intro env util reqs H Hinv
    have Hrest : ∀ q ∈ rest, (lookupVM ms vs q.1).isSome :=
      fun q hq => H q (List.mem_cons_of_mem p hq)
    rw [slaLoop2]
    by_cases h0 : p.1 = cur
    · rw [if_pos h0]
      exact ih env util reqs Hrest Hinv
    · rw [if_neg h0]
      by_cases h1 : (env.minfo p.1).s_state ≠ SState_t.S5
      · rw [if_pos h1]
        exact ih env util reqs Hrest Hinv
      · rw [if_neg h1]
        by_cases hg : (env.minfo p.1).cpu = rc
        · rw [if_pos hg]
          by_cases hm : (env.minfo p.1).memory_used + tm ≤ (env.minfo p.1).memory_size
          · rw [if_pos hm]
            obtain ⟨dv, hdv⟩ : ∃ dv, lookupVM ms vs p.1 = some dv :=
              Option.isSome_iff_exists.mp (H p (List.mem_cons_self p rest))
            have hfr1 := findVM_of_lookup ms vs env cur VMType_t.LINUX sv hcur
            have hfr2 := findVM_of_lookup ms vs env p.1 rv dv hdv
            simp only [hfr1, hfr2, List.append_nil]
            by_cases ha : (applyRemove env sv tId).addOk dv tId = true
            · rw [if_pos ha]
              constructor
              · exact envCpuEq_trans (envCpuEq_applyRemove env sv tId)
                  (envCpuEq_applyAdd (applyRemove env sv tId) dv tId)
              · intro v tA pr' hmem
                rcases List.mem_append.mp hmem with h | h
                · rcases List.mem_append.mp h with h' | h'
                  · rcases List.mem_append.mp h' with h'' | h''
                    · exact Or.inl h''
                    · simp at h''
                  · simp at h'
                · simp only [List.mem_singleton] at h
                  obtain ⟨hv, ht, -⟩ := Req.addTask.inj h
                  refine Or.inr ⟨ht, ?_⟩
                  rw [hv]
                  show ((applyAdd (applyRemove env sv tId) dv tId).vinfo dv).cpu = rc
                  rw [(envCpuEq_applyAdd (applyRemove env sv tId) dv tId).1 dv,
                    (envCpuEq_applyRemove env sv tId).1 dv, Hinv p.1 dv hdv]
                  exact hg
            · rw [if_neg ha]
              have HinvR : ∀ m w, lookupVM ms vs m = some w →
                  ((applyRemove env sv tId).vinfo w).cpu
                    = ((applyRemove env sv tId).minfo m).cpu := by
                intro m w hw
                rw [(envCpuEq_applyRemove env sv tId).1 w,
                  (envCpuEq_applyRemove env sv tId).2 m]
                exact Hinv m w hw
              have IH := ih (applyRemove env sv tId) util
                ((reqs ++ [Req.setState p.1 SState_t.S0]) ++ [Req.removeTask sv tId])
                Hrest HinvR
              constructor
              · exact envCpuEq_trans (envCpuEq_applyRemove env sv tId) IH.1
              · intro v tA pr' hmem
                rcases IH.2 v tA pr' hmem with h | h
                · rcases List.mem_append.mp h with h' | h'
                  · rcases List.mem_append.mp h' with h'' | h''
                    · exact Or.inl h''
                    · simp at h''
                  · simp at h'
                · exact Or.inr h
          · rw [if_neg hm]
            have IH := ih env util (reqs ++ [Req.setState p.1 SState_t.S0]) Hrest Hinv
            constructor
            · exact IH.1
            · intro v tA pr' hmem
              rcases IH.2 v tA pr' hmem with h | h
              · rcases List.mem_append.mp h with h' | h'
                · exact Or.inl h'
                · simp at h'
              · exact Or.inr h
        · rw [if_neg hg]
          exact ih env util reqs Hrest Hinv

/-- C6, amended: at every `VM_AddTask` the scheduler issues, the VM's cpu
equals the task's required cpu — for NewTask's placement add (given the
Init-established pairing invariant), for the consolidation add of
TaskComplete (the destination passed the cpu scan and its paired VM
carries its cpu), and for both adds of HandleSLAViolation (powered-on
candidates and powered-on-after-wake candidates both pass the cpu test).
The VM's flavor, however, need not match the task's required flavor. -/
theorem c6_amended :
    (∀ st env t v pr, st.inited = true →
      (∀ q ∈ st.energySortedMachines, (lookupVM st.machines st.vms q.1).isSome) →
      VMCpuInv st env →
      Req.addTask v t pr ∈ (newTask st env t).reqs →
      (env.vinfo v).cpu = (env.tinfo t).cpu)
    ∧ (∀ (st : SchedState) (env : Env) (t tm : Nat) (least : Nat × Nat)
        (rest : List (Nat × Nat)) (high uh tmin svm dvm : Nat),
      findMachineForTask st env t = some tm →
      sortBySnd (poweredOnUtil (afterDec st tm) env) = least :: rest →
      rest ≠ [] →
      findSmallestTaskOnMachine (afterDec st tm) env least.1 = some tmin →
      ((least :: rest).drop ((least :: rest).length / 2)).find?
          (cpuMatchB env (env.tinfo tmin).cpu) = some (high, uh) →
      lookupVM st.machines st.vms least.1 = some svm →
      lookupVM st.machines st.vms high = some dvm →
      (env.vinfo dvm).cpu = (env.minfo high).cpu →
      Req.addTask dvm tmin (codePriority tmin) ∈ (taskComplete st env t).reqs
      ∧ ((taskComplete st env t).env.vinfo dvm).cpu = (env.tinfo tmin).cpu)
    ∧ (∀ (st : SchedState) (env : Env) (tId cur sv v : Nat) (pr : Priority_t),
      lookupVM st.machines st.vms cur = some sv →
      (∀ p ∈ st.energySortedMachines, (lookupVM st.machines st.vms p.1).isSome) →
      VMCpuInv st env →
      Req.addTask v tId pr ∈ (handleSLAViolation st env tId (some cur)).reqs →
      ((handleSLAViolation st env tId (some cur)).env.vinfo v).cpu
        = (env.tinfo tId).cpu) := by
  refine ⟨?_, ?_, ?_⟩
  · intro st env t v pr hin H hinv hr
    have hs := newTask_spec st env t hin H
    rw [hs] at hr
    cases hf : st.energySortedMachines.find?
        (admissibleB st.machines st.vms env t (env.tinfo t).memory (env.tinfo t).cpu) with
    | none =>
      rw [hf] at hr
      rcases List.mem_append.mp hr with h | h
      · simp at h
      · obtain ⟨m', hm', _, _⟩ := checkAndTurnOff_mem _ _ _ h
        exact absurd hm' (by simp)
    | some p =>
      rw [hf] at hr
      rcases List.mem_append.mp hr with h | h
      · simp only [List.mem_singleton] at h
        obtain ⟨hv, -, -⟩ := Req.addTask.inj h
        obtain ⟨w, hw⟩ := Option.isSome_iff_exists.mp
          (H p (List.mem_of_find?_eq_some hf))
        have hadm := admissibleB_true st.machines st.vms env t (env.tinfo t).memory
          (env.tinfo t).cpu p (List.find?_some hf)
        rw [hw] at hv
        rw [hv]
        show (env.vinfo w).cpu = (env.tinfo t).cpu
        rw [hinv p.1 w hw]
        exact hadm.2.1
      · obtain ⟨m', hm', _, _⟩ := checkAndTurnOff_mem _ _ _ h
        exact absurd hm' (by simp)
  · intro st env t tm least rest high uh tmin svm dvm h1 hs hne hsm hfind hl1 hl2 hvm
    have htc := taskComplete_migration_eq st env t tm least rest high uh tmin svm dvm
      h1 hs hne hsm hfind hl1 hl2
    constructor
    · rw [htc]
      simp
    · rw [htc]
      show ((applyAdd (applyRemove env svm tmin) dvm tmin).vinfo dvm).cpu
        = (env.tinfo tmin).cpu
      rw [(envCpuEq_applyAdd (applyRemove env svm tmin) dvm tmin).1 dvm,
        (envCpuEq_applyRemove env svm tmin).1 dvm, hvm]
      simpa [cpuMatchB] using List.find?_some hfind
  · intro st env tId cur sv v pr hcur H Hinv hr
    have L1 := slaLoop1_adds st.machines st.vms cur tId (env.tinfo tId).memory
      (env.tinfo tId).cpu (env.tinfo tId).vm_type sv hcur st.energySortedMachines env
      st.machineUtilization [] H Hinv
    simp only [handleSLAViolation] at hr ⊢
    by_cases ha : (slaLoop1 st.machines st.vms env cur tId (env.tinfo tId).memory
        (env.tinfo tId).cpu (env.tinfo tId).vm_type st.machineUtilization []
        st.energySortedMachines).alloc = true
    · rw [if_pos ha] at hr ⊢
      rcases L1.2 v tId pr hr with h | h
      · exact absurd h (List.not_mem_nil _)
      · exact h.2
    · rw [if_neg ha] at hr ⊢
      have Hinv1 : ∀ m w, lookupVM st.machines st.vms m = some w →
          (((slaLoop1 st.machines st.vms env cur tId (env.tinfo tId).memory
            (env.tinfo tId).cpu (env.tinfo tId).vm_type st.machineUtilization []
            st.energySortedMachines).env).vinfo w).cpu
          = (((slaLoop1 st.machines st.vms env cur tId (env.tinfo tId).memory
            (env.tinfo tId).cpu (env.tinfo tId).vm_type st.machineUtilization []
            st.energySortedMachines).env).minfo m).cpu := by
        intro m w hw
        rw [L1.1.1 w, L1.1.2 m]
        exact Hinv m w hw
      have L2 := slaLoop2_adds st.machines st.vms cur tId (env.tinfo tId).memory
        (env.tinfo tId).cpu (env.tinfo tId).vm_type sv hcur st.energySortedMachines
        (slaLoop1 st.machines st.vms env cur tId (env.tinfo tId).memory
          (env.tinfo tId).cpu (env.tinfo tId).vm_type st.machineUtilization []
          st.energySortedMachines).env
        st.machineUtilization
        (slaLoop1 st.machines st.vms env cur tId (env.tinfo tId).memory
          (env.tinfo tId).cpu (env.tinfo tId).vm_type st.machineUtilization []
          st.energySortedMachines).reqs
        H Hinv1
      rcases L2.2 v tId pr hr with h | h
      · rcases L1.2 v tId pr h with h' | h'
        · exact absurd h' (List.not_mem_nil _)
        · rw [L2.1.1 v]
          exact h'.2
      · exact h.2

/-- Evaluates C6's amended theorem on all three handler paths: NewTask's
add on scenario A, TaskComplete's consolidation add on scenario E, and
HandleSLAViolation's migration add on scenario A. -/
theorem c6_amended_witness :
    (envA.vinfo 101).cpu = (envA.tinfo 3).cpu
    ∧ ((taskComplete stE envE 9).env.vinfo 102).cpu = (envE.tinfo 4).cpu
    ∧ ((handleSLAViolation stA envA 7 (some 1)).env.vinfo 100).cpu
        = (envA.tinfo 7).cpu := by
  refine ⟨?_, ?_, ?_⟩
  · exact c6_amended.1 stA envA 3 101 Priority_t.MID_PRIORITY rfl (by decide) vmCpuInvA
      (by decide)
  · exact (c6_amended.2.1 stE envE 9 0 (0, 1) [(1, 2), (2, 3), (3, 4)] 2 3 4 100 102
      (by decide) (by decide) (by decide) (by decide) (by decide) (by decide) (by decide)
      (by decide)).2
  · exact c6_amended.2.2 stA envA 7 1 101 100 Priority_t.MID_PRIORITY
      (by decide) (by decide) vmCpuInvA (by decide)

/-- C5, amended: when a completion triggers a consolidation migration, the
migrated task is the smallest on the least-utilized powered-on machine and
the destination is the FIRST cpu-matching machine of the ascending
utilization order restricted to `sorted[n/2 ...]` — every upper-half
machine before it fails the cpu test, no memory-admission test is applied,
and the destination's utilization is at least the source's; one utilization
count moves from source to destination. -/
theorem c5_amended (st : SchedState) (env : Env) (t tm : Nat) (least : Nat × Nat)
    (rest : List (Nat × Nat)) (high uh : Nat) (tmin svm dvm : Nat)
    (h1 : findMachineForTask st env t = some tm)
    (hs : sortBySnd (poweredOnUtil (afterDec st tm) env) = least :: rest)
    (hne : rest ≠ [])
    (hsm : findSmallestTaskOnMachine (afterDec st tm) env least.1 = some tmin)
    (hfind : ((least :: rest).drop ((least :: rest).length / 2)).find?
        (cpuMatchB env (env.tinfo tmin).cpu) = some (high, uh))
    (hl1 : lookupVM st.machines st.vms least.1 = some svm)
    (hl2 : lookupVM st.machines st.vms high = some dvm) :
    Req.removeTask svm tmin ∈ (taskComplete st env t).reqs
    ∧ Req.addTask dvm tmin (codePriority tmin) ∈ (taskComplete st env t).reqs
    ∧ (taskComplete st env t).st.machineUtilization
        = applyMigrationUtil (decUtilAt st.machineUtilization tm) least.1 high
    ∧ (env.minfo high).cpu = (env.tinfo tmin).cpu
    ∧ least.2 ≤ uh
    ∧ (∃ l1 l2, (least :: rest).drop ((least :: rest).length / 2)
          = l1 ++ (high, uh) :: l2
        ∧ ∀ q ∈ l1, cpuMatchB env (env.tinfo tmin).cpu q = false) := by
  have htc := taskComplete_migration_eq st env t tm least rest high uh tmin svm dvm
    h1 hs hne hsm hfind hl1 hl2
  refine ⟨?_, ?_, ?_, ?_, ?_, ?_⟩
  · rw [htc]
    simp
  · rw [htc]
    simp
  · rw [htc]
    rfl
  · simpa [cpuMatchB] using List.find?_some hfind
  · have hsort : List.Sorted sndLE (least :: rest) := by
      rw [← hs]
      exact List.sorted_insertionSort sndLE (poweredOnUtil (afterDec st tm) env)
    have hmem : (high, uh) ∈ (least :: rest).drop ((least :: rest).length / 2) :=
      List.mem_of_find?_eq_some hfind
    have hmid : 1 ≤ (least :: rest).length / 2 := by
      cases rest with
      | nil => exact absurd rfl hne
      | cons a l =>
        simp
        omega
    have hmemrest : (high, uh) ∈ rest := by
      obtain ⟨k, hk⟩ := Nat.exists_eq_add_of_le hmid
      rw [hk, Nat.add_comm, List.drop_succ_cons] at hmem
      exact List.drop_subset _ _ hmem
    exact List.rel_of_sorted_cons hsort _ hmemrest
  · obtain ⟨-, l1, l2, hsplit, hprev⟩ := List.find?_eq_some.mp hfind
    refine ⟨l1, l2, hsplit, ?_⟩
    intro q hq
    simpa using hprev q hq

/-- Evaluates C5's amended theorem on scenario E: the migration of task 4
to machine 2 (VM 102), the first cpu match of the ascending upper half. -/
theorem c5_amended_witness :
    Req.removeTask 100 4 ∈ (taskComplete stE envE 9).reqs
    ∧ Req.addTask 102 4 (codePriority 4) ∈ (taskComplete stE envE 9).reqs
    ∧ (taskComplete stE envE 9).st.machineUtilization
        = applyMigrationUtil (decUtilAt stE.machineUtilization 0) 0 2
    ∧ (envE.minfo 2).cpu = (envE.tinfo 4).cpu
    ∧ (1 : Nat) ≤ 3
    ∧ (∃ l1 l2, ([(0, 1), (1, 2), (2, 3), (3, 4)] : List (Nat × Nat)).drop
          (([(0, 1), (1, 2), (2, 3), (3, 4)] : List (Nat × Nat)).length / 2)
          = l1 ++ (2, 3) :: l2
        ∧ ∀ q ∈ l1, cpuMatchB envE (envE.tinfo 4).cpu q = false) :=
  c5_amended stE envE 9 0 (0, 1) [(1, 2), (2, 3), (3, 4)] 2 3 4 100 102
    (by decide) (by decide) (by decide) (by decide) (by decide) (by decide) (by decide)
